import Mathlib

/-
Verification of the session-tracking core of the claude-ide repository.

The definitions below are a shallow embedding of the TypeScript sources:
  - src/web-app/lib/session-repository.ts   (entity store for sessions and sub-agents)
  - src/web-app/app/actions.ts              (event normalizer and lifecycle controller)
  - src/web-app/app/api/sessions/[sessionId]/stream/route.ts (streaming delivery)

Modelling conventions:
  - JS Date values are modelled as Nat timestamps passed in explicitly (`now`).
  - Randomly generated UUIDs are passed in explicitly as fresh id strings.
  - JS Map is modelled as an insertion-ordered association list with
    replace-on-set semantics (`lookupA` / `setA`).
  - JS string truthiness (`if (x)` on an optional string) is modelled as
    "present and non-empty"; number truthiness on `duration_ms` is
    "present and non-zero".
  - `number` metric fields are Nat (token counts) and Rat (cost in USD);
    only assignment and comparison occur, so this is exact.
  - The debounced durability writes (scheduleSave / flush) have no effect on
    the in-memory state observed by any operation and are omitted.
-/

set_option linter.unusedVariables false

/-- Session status union from src/web-app/lib/types.ts. -/
inductive SessionStatus where
  | active
  | completed
  | paused
  | error
  deriving DecidableEq, Repr

/-- Sub-agent status union from src/web-app/lib/types.ts. -/
inductive SubAgentStatus where
  | running
  | completed
  | error
  deriving DecidableEq, Repr

/-- Arbitrary JSON-like metadata values (the `Record<string, any>` bags). -/
inductive Json where
  | null
  | str (s : String)
  | num (q : Rat)
  | boolean (b : Bool)
  | arr (xs : List Json)
  | obj (fields : List (String × Json))

/-- SessionMessage record from src/web-app/lib/types.ts. -/
structure SessionMessage where
  timestamp : Nat
  type : String
  subtype : Option String
  content : String
  metadata : Option Json

/-- SubAgentMessage record from src/web-app/lib/types.ts. -/
structure SubAgentMessage where
  timestamp : Nat
  type : String
  content : String
  metadata : Option Json

/-- SubAgent record from src/web-app/lib/types.ts. -/
structure SubAgent where
  id : String
  sessionId : String
  type : String
  description : String
  status : SubAgentStatus
  contextUsed : Nat
  totalTokens : Nat
  totalCost : Rat
  createdAt : Nat
  completedAt : Option Nat
  error : Option String
  messages : List SubAgentMessage
  result : Option String

/-- Session record from src/web-app/lib/types.ts.  The `subAgents` field holds
the sub-agent records pushed by `createSubAgent`, exactly as the TS code pushes
object references into the array; `getSession` re-resolves them by id against
the sub-agent map, as in the source. -/
structure Session where
  id : String
  sdkSessionId : Option String
  githubRepo : String
  workspacePath : String
  gitBranch : String
  title : String
  description : String
  status : SessionStatus
  contextUsed : Nat
  maxContext : Nat
  totalTokens : Nat
  totalCost : Rat
  model : String
  createdAt : Nat
  updatedAt : Nat
  completedAt : Option Nat
  error : Option String
  prUrl : Option String
  messages : List SessionMessage
  subAgents : List SubAgent

/-- Insertion-ordered association map, modelling a JS Map. -/
abbrev AssocMap (α : Type) := List (String × α)

/-- Map lookup (JS Map.get). -/
def lookupA {α : Type} : AssocMap α → String → Option α
  | [], _ => none
  | (k, v) :: rest, key => if k = key then some v else lookupA rest key

/-- Map insert or replace (JS Map.set): replaces in place, otherwise appends. -/
def setA {α : Type} : AssocMap α → String → α → AssocMap α
  | [], key, v => [(key, v)]
  | (k, v') :: rest, key, v =>
    if k = key then (k, v) :: rest else (k, v') :: setA rest key v

/-- The in-memory state of the SessionRepository singleton: the two private
maps `sessions` and `subAgents`. -/
structure Store where
  sessions : AssocMap Session
  subAgents : AssocMap SubAgent

/-- JS `a || b` on an optional string: falls back when absent or empty. -/
def jsOr (o : Option String) (d : String) : String :=
  match o with
  | some s => if s = "" then d else s
  | none => d

/-- JS `s.substring(0, n)`: the first n characters. -/
def jsTake (s : String) (n : Nat) : String :=
  String.mk (s.data.take n)

/-- JS `Array.prototype.join(sep)`. -/
def jsJoin (sep : String) : List String → String
  | [] => ""
  | [s] => s
  | s :: rest => s ++ sep ++ jsJoin sep rest

/-- JS `prompt.split("\n")[0]`: the longest prefix free of newline
characters, which is exactly the first element a single-character split
produces. -/
def jsFirstLine (s : String) : String :=
  String.mk (s.data.takeWhile (fun c => !(c = '\n')))

/-- extractTitle from src/web-app/lib/session-repository.ts: first line of the
prompt, truncated to 50 characters plus an ellipsis when longer. -/
def extractTitle (prompt : String) : String :=
  let firstLine := jsFirstLine prompt
  if firstLine.length > 50 then jsTake firstLine 50 ++ "..." else firstLine

/-- Input record of createSession. -/
structure CreateSessionData where
  githubRepo : String
  workspacePath : String
  gitBranch : String
  prompt : String
  model : Option String := none

/-- createSession from src/web-app/lib/session-repository.ts.  The generated
UUID and the current time are passed in explicitly. -/
def createSession (st : Store) (data : CreateSessionData) (id : String)
    (now : Nat) : Session × Store :=
  let title := extractTitle data.prompt
  let session : Session :=
    { id := id
      sdkSessionId := none
      githubRepo := data.githubRepo
      workspacePath := data.workspacePath
      gitBranch := data.gitBranch
      title := title
      description := data.prompt
      status := SessionStatus.active
      contextUsed := 0
      maxContext := 200000
      totalTokens := 0
      totalCost := 0
      model := jsOr data.model ("claude-sonnet-4-5")
      createdAt := now
      updatedAt := now
      completedAt := none
      error := none
      prUrl := none
      messages := []
      subAgents := [] }
  (session, { st with sessions := setA st.sessions id session })

/-- getSession from src/web-app/lib/session-repository.ts: returns the stored
session with its sub-agent list re-resolved against the sub-agent map. -/
def getSession (st : Store) (id : String) : Option Session :=
  match lookupA st.sessions id with
  | none => none
  | some session =>
    some { session with
            subAgents := session.subAgents.filterMap
              (fun sa => lookupA st.subAgents sa.id) }

/-- The `Partial<Session>` update record built by updateSessionStatus. -/
structure SessionUpdates where
  status : Option SessionStatus := none
  completedAt : Option Nat := none
  error : Option String := none

/-- updateSession from src/web-app/lib/session-repository.ts restricted to the
fields updateSessionStatus can set: spreads the updates over the stored
session and bumps updatedAt. -/
def updateSession (st : Store) (id : String) (updates : SessionUpdates)
    (now : Nat) : Store :=
  match lookupA st.sessions id with
  | none => st
  | some session =>
    let updated : Session :=
      { session with
          status := updates.status.getD session.status
          completedAt := match updates.completedAt with
            | some t => some t
            | none => session.completedAt
          error := match updates.error with
            | some e => some e
            | none => session.error
          updatedAt := now }
    { st with sessions := setA st.sessions id updated }

/-- updateSessionStatus from src/web-app/lib/session-repository.ts: builds a
partial update with the status, a completion stamp for terminal statuses, and
the error string when supplied and truthy, then applies updateSession. -/
def updateSessionStatus (st : Store) (id : String) (status : SessionStatus)
    (error : Option String) (now : Nat) : Store :=
  match lookupA st.sessions id with
  | none => st
  | some _ =>
    let u1 : SessionUpdates := { status := some status }
    let u2 :=
      if status = SessionStatus.completed ∨ status = SessionStatus.error then
        { u1 with completedAt := some now }
      else u1
    let u3 := match error with
      | some e => if e = "" then u2 else { u2 with error := some e }
      | none => u2
    updateSession st id u3 now

/-- addSessionMessage from src/web-app/lib/session-repository.ts: appends a
timestamped message to the session log and bumps updatedAt; silently does
nothing when the id is absent. -/
def addSessionMessage (st : Store) (id : String) (type : String)
    (content : String) (subtype : Option String) (metadata : Option Json)
    (now : Nat) : Store :=
  match lookupA st.sessions id with
  | none => st
  | some session =>
    let message : SessionMessage :=
      { timestamp := now
        type := type
        subtype := subtype
        content := content
        metadata := metadata }
    let updated : Session :=
      { session with
          messages := session.messages ++ [message]
          updatedAt := now }
    { st with sessions := setA st.sessions id updated }

/-- The metrics record accepted by updateSessionMetrics. -/
structure MetricsData where
  contextUsed : Option Nat := none
  totalTokens : Option Nat := none
  totalCost : Option Rat := none
  sdkSessionId : Option String := none

/-- updateSessionMetrics from src/web-app/lib/session-repository.ts: assigns
each supplied field unconditionally (the sdkSessionId only when truthy) and
bumps updatedAt. -/
def updateSessionMetrics (st : Store) (id : String) (data : MetricsData)
    (now : Nat) : Store :=
  match lookupA st.sessions id with
  | none => st
  | some session =>
    let s1 := match data.contextUsed with
      | some v => { session with contextUsed := v }
      | none => session
    let s2 := match data.totalTokens with
      | some v => { s1 with totalTokens := v }
      | none => s1
    let s3 := match data.totalCost with
      | some v => { s2 with totalCost := v }
      | none => s2
    let s4 := match data.sdkSessionId with
      | some v => if v = "" then s3 else { s3 with sdkSessionId := some v }
      | none => s3
    { st with sessions := setA st.sessions id ({ s4 with updatedAt := now }) }

/-- Input record of createSubAgent. -/
structure CreateSubAgentData where
  sessionId : String
  type : String
  description : String

/-- createSubAgent from src/web-app/lib/session-repository.ts: creates a
running sub-agent, registers it in the sub-agent map, and pushes it onto the
parent session record when the parent exists. -/
def createSubAgent (st : Store) (data : CreateSubAgentData) (id : String)
    (now : Nat) : SubAgent × Store :=
  let subAgent : SubAgent :=
    { id := id
      sessionId := data.sessionId
      type := data.type
      description := data.description
      status := SubAgentStatus.running
      contextUsed := 0
      totalTokens := 0
      totalCost := 0
      createdAt := now
      completedAt := none
      error := none
      messages := []
      result := none }
  let st1 := { st with subAgents := setA st.subAgents id subAgent }
  let st2 := match lookupA st1.sessions data.sessionId with
    | none => st1
    | some session =>
      let updated : Session :=
        { session with subAgents := session.subAgents ++ [subAgent] }
      { st1 with sessions := setA st1.sessions data.sessionId updated }
  (subAgent, st2)

/-- The `Partial<SubAgent>` update record built by updateSubAgentStatus. -/
structure SubAgentUpdates where
  status : Option SubAgentStatus := none
  completedAt : Option Nat := none
  error : Option String := none
  result : Option String := none

/-- updateSubAgent from src/web-app/lib/session-repository.ts restricted to
the fields updateSubAgentStatus can set. -/
def updateSubAgent (st : Store) (id : String) (updates : SubAgentUpdates) :
    Store :=
  match lookupA st.subAgents id with
  | none => st
  | some sa =>
    let updated : SubAgent :=
      { sa with
          status := updates.status.getD sa.status
          completedAt := match updates.completedAt with
            | some t => some t
            | none => sa.completedAt
          error := match updates.error with
            | some e => some e
            | none => sa.error
          result := match updates.result with
            | some r => some r
            | none => sa.result }
    { st with subAgents := setA st.subAgents id updated }

/-- updateSubAgentStatus from src/web-app/lib/session-repository.ts: sets the
status, stamps completedAt for terminal statuses, and records the error and
result strings when supplied and truthy. -/
def updateSubAgentStatus (st : Store) (id : String) (status : SubAgentStatus)
    (error : Option String) (result : Option String) (now : Nat) : Store :=
  match lookupA st.subAgents id with
  | none => st
  | some _ =>
    let u1 : SubAgentUpdates := { status := some status }
    let u2 :=
      if status = SubAgentStatus.completed ∨ status = SubAgentStatus.error then
        { u1 with completedAt := some now }
      else u1
    let u3 := match error with
      | some e => if e = "" then u2 else { u2 with error := some e }
      | none => u2
    let u4 := match result with
      | some r => if r = "" then u3 else { u3 with result := some r }
      | none => u3
    updateSubAgent st id u4

/-- The metrics record accepted by updateSubAgentMetrics. -/
structure SubAgentMetricsData where
  contextUsed : Option Nat := none
  totalTokens : Option Nat := none
  totalCost : Option Rat := none

/-- updateSubAgentMetrics from src/web-app/lib/session-repository.ts: assigns
each supplied field unconditionally. -/
def updateSubAgentMetrics (st : Store) (id : String)
    (data : SubAgentMetricsData) : Store :=
  match lookupA st.subAgents id with
  | none => st
  | some sa =>
    let s1 := match data.contextUsed with
      | some v => { sa with contextUsed := v }
      | none => sa
    let s2 := match data.totalTokens with
      | some v => { s1 with totalTokens := v }
      | none => s1
    let s3 := match data.totalCost with
      | some v => { s2 with totalCost := v }
      | none => s2
    { st with subAgents := setA st.subAgents id s3 }

/-- Usage block of an upstream SDK message. -/
structure Usage where
  input_tokens : Option Nat := none
  output_tokens : Option Nat := none
  cache_read_input_tokens : Option Nat := none
  cache_creation_input_tokens : Option Nat := none

/-- One element of an assistant content array; only text blocks are read. -/
inductive ContentBlock where
  | text (s : String)
  | other

/-- The `message` payload of an assistant SDK message: either a bare string or
a structured object with a content array and usage stats. -/
inductive AssistantPayload where
  | str (s : String)
  | obj (content : Option (List ContentBlock)) (usage : Option Usage)
        (model : Option String) (msgId : Option String)

/-- The structured `tool_input` of a stream event. -/
structure ToolInput where
  subagent_type : Option String := none
  description : Option String := none

/-- Closed tagged union over the upstream SDK message shapes read by
processSessionMessages in src/web-app/app/actions.ts.  `streamEvent` carries
`tool_output` already stringified (the source applies JSON.stringify to
non-string outputs before use).  `other` covers every shape the function does
not branch on (user echoes, tool progress, unrecognized events). -/
inductive SdkMessage where
  | systemInit (model : Option String) (tools : Option (List String))
               (agents : Option (List String))
  | assistant (message : AssistantPayload)
  | streamEvent (eventType : String) (toolName : Option String)
                (toolInput : Option ToolInput) (toolOutput : String)
  | result (subtype : String) (usage : Option Usage)
           (totalCostUsd : Option Rat) (durationMs : Option Nat)
           (sessionId : Option String) (errors : Option (List String))
  | other (ty : String) (subtype : Option String)

/-- The `message.type` discriminator string of an SDK message. -/
def SdkMessage.typeName : SdkMessage → String
  | systemInit _ _ _ => "system"
  | assistant _ => "assistant"
  | streamEvent _ _ _ _ => "stream_event"
  | result _ _ _ _ _ _ => "result"
  | other ty _ => ty

/-- The optional `message.subtype` field of an SDK message. -/
def SdkMessage.subtypeField : SdkMessage → Option String
  | systemInit _ _ _ => some ("init")
  | result subtype _ _ _ _ _ => some subtype
  | other _ s => s
  | _ => none

/-- An optional string list rendered into metadata JSON. -/
def jsonOfStrings : Option (List String) → Json
  | some xs => Json.arr (xs.map Json.str)
  | none => Json.null

/-- An optional Nat rendered into metadata JSON. -/
def jsonOfOptNat : Option Nat → Json
  | some n => Json.num (n : Rat)
  | none => Json.null

/-- An optional string rendered into metadata JSON. -/
def jsonOfOptStr : Option String → Json
  | some s => Json.str s
  | none => Json.null

/-- A usage block rendered into metadata JSON. -/
def jsonOfUsage : Option Usage → Json
  | some u => Json.obj
      [("input_tokens", jsonOfOptNat u.input_tokens),
       ("output_tokens", jsonOfOptNat u.output_tokens),
       ("cache_read_input_tokens", jsonOfOptNat u.cache_read_input_tokens),
       ("cache_creation_input_tokens", jsonOfOptNat u.cache_creation_input_tokens)]
  | none => Json.null

/-- Left-pads the decimal rendering of n with zeros to width w. -/
def padZeros (n : Nat) (w : Nat) : String :=
  let s := toString n
  String.mk (List.replicate (w - s.length) ('0')) ++ s

/-- JS template `(duration_ms / 1000).toFixed(1)` followed by the unit s:
seconds with one rounded decimal digit. -/
def fmtDurationSeconds (ms : Nat) : String :=
  let tenths := (ms + 50) / 100
  toString (tenths / 10) ++ "." ++ toString (tenths % 10) ++ "s"

/-- JS `cost.toFixed(6)` for a non-negative rational cost. -/
def ratToFixed6 (q : Rat) : String :=
  let scaled := (q * 1000000 + 1/2).floor.toNat
  toString (scaled / 1000000) ++ "." ++ padZeros (scaled % 1000000) 6

/-- The per-run mutable state of processSessionMessages: the entity store and
the local `currentSubAgentId` variable. -/
structure RunState where
  store : Store
  currentSubAgentId : Option String

/-- One iteration of the event loop of processSessionMessages in
src/web-app/app/actions.ts: classifies the message, applies its state effects
to the store, and appends a log entry when the computed log content is
non-empty.  `freshId` stands for the UUID generated for a spawned sub-agent;
`now` stands for the wall-clock time of this iteration. -/
def processOneMessage (sessionId : String) (msg : SdkMessage)
    (freshId : String) (now : Nat) (rs : RunState) : RunState :=
  let step : Store × Option String × String × Json :=
    match msg with
    | SdkMessage.streamEvent eventType toolName toolInput toolOutput =>
      if eventType = "tool_use" ∧ toolName = some ("Task") then
        let subAgentType :=
          jsOr (toolInput.bind (fun ti => ti.subagent_type)) ("unknown")
        let description :=
          jsOr (toolInput.bind (fun ti => ti.description)) ("Running task")
        let created := createSubAgent rs.store
          { sessionId := sessionId, type := subAgentType,
            description := description } freshId now
        let logContent :=
          "🤖 Launching sub-agent: " ++ subAgentType ++ "\n📋 " ++ description
        let metadata := Json.obj
          [("sub_agent_id", Json.str created.1.id),
           ("sub_agent_type", Json.str subAgentType)]
        (created.2, some created.1.id, logContent, metadata)
      else if eventType = "tool_result" ∧ toolName = some ("Task") ∧
              (rs.currentSubAgentId.getD "") ≠ "" then
        let cid := rs.currentSubAgentId.getD ""
        let st1 := updateSubAgentStatus rs.store cid SubAgentStatus.completed
          none (some (jsTake toolOutput 1000)) now
        let logContent := "✅ Sub-agent completed: " ++ jsTake toolOutput 500
        let metadata := Json.obj [("sub_agent_id", Json.str cid)]
        (st1, none, logContent, metadata)
      else
        (rs.store, rs.currentSubAgentId, "", Json.obj [])
    | SdkMessage.systemInit model tools agents =>
      let modelName := jsOr model ("claude-sonnet-4-5")
      let toolCount := (tools.getD []).length
      let agentCount := (agents.getD []).length
      let logContent :=
        "🚀 Session initialized with " ++ modelName ++ "\n✓ " ++
        toString toolCount ++ " tools loaded" ++
        (if agentCount > 0 then
          "\n✓ " ++ toString agentCount ++ " sub-agents available"
        else "")
      let metadata := Json.obj
        [("tools", jsonOfStrings tools), ("agents", jsonOfStrings agents)]
      (rs.store, rs.currentSubAgentId, logContent, metadata)
    | SdkMessage.assistant payload =>
      match payload with
      | AssistantPayload.str s =>
        (rs.store, rs.currentSubAgentId,
         (if s = "" then "Assistant message" else s), Json.obj [])
      | AssistantPayload.obj content usage model msgId =>
        let assistantMessage := jsJoin ("\n")
          ((content.getD []).filterMap (fun c =>
            match c with
            | ContentBlock.text t => some t
            | ContentBlock.other => none))
        let tokenFields := match usage with
          | some u =>
            [("tokens", Json.obj
              [("input", Json.num ((u.input_tokens.getD 0 : Nat) : Rat)),
               ("output", Json.num ((u.output_tokens.getD 0 : Nat) : Rat)),
               ("cache_read",
                Json.num ((u.cache_read_input_tokens.getD 0 : Nat) : Rat)),
               ("cache_creation",
                Json.num ((u.cache_creation_input_tokens.getD 0 : Nat) : Rat))])]
          | none => []
        let modelFields := match model with
          | some m => if m = "" then [] else [("model", Json.str m)]
          | none => []
        let idFields := match msgId with
          | some i => if i = "" then [] else [("message_id", Json.str i)]
          | none => []
        let st1 := match usage with
          | some u =>
            let totalTokens := u.input_tokens.getD 0 + u.output_tokens.getD 0
            updateSessionMetrics rs.store sessionId
              { contextUsed := some totalTokens,
                totalTokens := some totalTokens } now
          | none => rs.store
        let logContent :=
          if assistantMessage = "" then "Assistant message" else assistantMessage
        (st1, rs.currentSubAgentId, logContent,
         Json.obj (tokenFields ++ modelFields ++ idFields))
    | SdkMessage.result subtype usage totalCostUsd durationMs sdkSid errors =>
      if subtype = "success" then
        let totalTokens :=
          (match usage with | some u => u.input_tokens.getD 0 | none => 0) +
          (match usage with | some u => u.output_tokens.getD 0 | none => 0)
        let cost := totalCostUsd.getD 0
        let st1 := updateSessionStatus rs.store sessionId
          SessionStatus.completed none now
        let st2 := updateSessionMetrics st1 sessionId
          { totalTokens := some totalTokens, totalCost := some cost,
            contextUsed := some totalTokens, sdkSessionId := sdkSid } now
        let duration := match durationMs with
          | some ms => if ms = 0 then "N/A" else fmtDurationSeconds ms
          | none => "N/A"
        let logContent :=
          "✅ Session completed\n⏱️ Duration: " ++ duration ++
          "\n💰 Cost: $" ++ ratToFixed6 cost
        let metadata := Json.obj
          [("usage", jsonOfUsage usage),
           ("duration_ms", jsonOfOptNat durationMs),
           ("total_cost", Json.num cost),
           ("session_id", jsonOfOptStr sdkSid)]
        (st2, rs.currentSubAgentId, logContent, metadata)
      else
        let errorMsg := match errors with
          | some (e :: _) => e
          | _ => "Error: " ++ subtype
        let st1 := updateSessionStatus rs.store sessionId
          SessionStatus.error (some errorMsg) now
        let metadata := Json.obj [("errors", jsonOfStrings errors)]
        (st1, rs.currentSubAgentId, "❌ " ++ errorMsg, metadata)
    | SdkMessage.other _ _ =>
      (rs.store, rs.currentSubAgentId, "", Json.obj [])
  let st := step.1
  let cur := step.2.1
  let logContent := step.2.2.1
  let metadata := step.2.2.2
  if logContent = "" then
    { store := st, currentSubAgentId := cur }
  else
    { store := addSessionMessage st sessionId msg.typeName logContent
        msg.subtypeField (some metadata) now,
      currentSubAgentId := cur }

/-- The event loop of processSessionMessages: consumes the finite prefix of
events that arrive before the stream terminates, strictly in order.  Each
event carries its fresh-id supply and its arrival time. -/
def processSessionMessages (sessionId : String)
    (events : List (SdkMessage × String × Nat)) (rs : RunState) : RunState :=
  match events with
  | [] => rs
  | ev :: rest =>
    processSessionMessages sessionId rest
      (processOneMessage sessionId ev.1 ev.2.1 ev.2.2 rs)

/-- How the upstream stream of one run terminates: it either closes normally
after its last event, or raises.  A raised JS value carries `some message`
when it is an Error instance and `none` otherwise. -/
inductive StreamEnd where
  | closed
  | raised (message : Option String)

/-- The message computed by the catch blocks in src/web-app/app/actions.ts:
`error instanceof Error ? error.message : "Unknown error"`. -/
def caughtMessage : Option String → String
  | some m => m
  | none => "Unknown error"

/-- runSessionInBackground from src/web-app/app/actions.ts: runs the event
loop over the stream and, when the stream raised, stamps the session with
status error and the caught message.  A normally closed stream leaves
whatever state the processed events produced. -/
def runSessionInBackground (sessionId : String)
    (events : List (SdkMessage × String × Nat)) (ending : StreamEnd)
    (errNow : Nat) (st : Store) : Store :=
  let rs := processSessionMessages sessionId events
    { store := st, currentSubAgentId := none }
  match ending with
  | StreamEnd.closed => rs.store
  | StreamEnd.raised m =>
    updateSessionStatus rs.store sessionId SessionStatus.error
      (some (caughtMessage m)) errNow

/-- The `{ success, error? }` result shape of the server actions. -/
inductive ActionResult where
  | ok
  | failure (message : String)
  deriving DecidableEq, Repr

/-- What the synchronous part of continueSession produced: its result value,
the store after its mutations, and whether a resume run was launched. -/
structure ContinueOutcome where
  result : ActionResult
  store : Store
  runStarted : Bool

/-- continueSession from src/web-app/app/actions.ts (synchronous part).  The
`repoExists` flag models the repository lookup (whose implementation is a
store variant not present in the sources; per the spec it is an opaque
external handle check).  When the stored continuation token is missing or
empty the action fails fast before any mutation; otherwise it flips the
session to active, appends the user prompt, and launches the resume run in
the background. -/
def continueSession (st : Store) (sessionId : String) (prompt : String)
    (repoExists : Bool) (now : Nat) : ContinueOutcome :=
  match getSession st sessionId with
  | none =>
    { result := ActionResult.failure ("Session not found"),
      store := st, runStarted := false }
  | some session =>
    if (session.sdkSessionId.getD "") = "" then
      { result := ActionResult.failure ("Session cannot be resumed"),
        store := st, runStarted := false }
    else if repoExists = false then
      { result := ActionResult.failure ("Repository not found"),
        store := st, runStarted := false }
    else
      let st1 := updateSessionStatus st sessionId SessionStatus.active none now
      let st2 := addSessionMessage st1 sessionId ("user") prompt none none now
      { result := ActionResult.ok, store := st2, runStarted := true }

/-- The local state of one SSE subscription in
src/web-app/app/api/sessions/[sessionId]/stream/route.ts: the last observed
message count and the one-shot completion flag. -/
structure PollState where
  lastMessageCount : Nat
  completionSent : Bool

/-- The JSON payloads a subscription can push (heartbeat comments are not
data events and are kept out of this union). -/
inductive SseEvent where
  | initEvent (session : Session)
  | message (m : SessionMessage) (status : SessionStatus)
      (contextUsed : Nat) (totalTokens : Nat) (totalCost : Rat)
  | complete (status : SessionStatus) (contextUsed : Nat) (totalTokens : Nat)
      (totalCost : Rat) (sdkSessionId : Option String)
  | channelClosed

/-- One tick of the polling interval in the stream route: pushes the newly
appended messages, then the one-shot complete event on a terminal status, and
clears the one-shot flag when the session is active again. -/
def pollTick (session : Session) (ps : PollState) :
    List SseEvent × PollState :=
  let newMessages :=
    if ps.lastMessageCount < session.messages.length then
      session.messages.drop ps.lastMessageCount
    else []
  let lastCount :=
    if ps.lastMessageCount < session.messages.length then
      session.messages.length
    else ps.lastMessageCount
  let messageEvents := newMessages.map (fun m =>
    SseEvent.message m session.status session.contextUsed
      session.totalTokens session.totalCost)
  let isTerminal :=
    session.status = SessionStatus.completed ∨
    session.status = SessionStatus.error
  let completeEvents :=
    if isTerminal ∧ ps.completionSent = false then
      [SseEvent.complete session.status session.contextUsed
        session.totalTokens session.totalCost session.sdkSessionId]
    else []
  let sent1 :=
    if isTerminal ∧ ps.completionSent = false then true else ps.completionSent
  let sent2 :=
    if session.status = SessionStatus.active ∧ sent1 = true then false
    else sent1
  (messageEvents ++ completeEvents,
   { lastMessageCount := lastCount, completionSent := sent2 })

/-- Runs the polling loop over a trace of session snapshots, one per tick.  A
`none` snapshot means the session disappeared from the store: the channel
closes and polling stops. -/
def pollLoop (snaps : List (Option Session)) (ps : PollState) :
    List SseEvent × PollState :=
  match snaps with
  | [] => ([], ps)
  | none :: _ => ([SseEvent.channelClosed], ps)
  | some s :: rest =>
    let t := pollTick s ps
    let r := pollLoop rest t.2
    (t.1 ++ r.1, r.2)

/-- Number of complete events in a pushed event list. -/
def completeCount (evs : List SseEvent) : Nat :=
  (evs.filter (fun e =>
    match e with
    | SseEvent.complete _ _ _ _ _ => true
    | _ => false)).length

/-! ### Concrete fixtures used by witnesses and counterexamples -/

/-- The empty store. -/
def emptyStore : Store := { sessions := [], subAgents := [] }

/-- A freshly created session for the prompt "fix bug". -/
def freshSession : Session :=
  (createSession emptyStore
    { githubRepo := "octo/demo", workspacePath := "/ws/demo",
      gitBranch := "session-1", prompt := "fix bug" } ("s1") 0).1

/-- A store holding only the fresh session under id s1. -/
def oneSessionStore : Store :=
  { sessions := [("s1", freshSession)], subAgents := [] }

/-- A session with accumulated metrics. -/
def busySession : Session :=
  { freshSession with contextUsed := 100, totalTokens := 100, totalCost := 1 }

/-- A running sub-agent with accumulated metrics. -/
def busySubAgent : SubAgent :=
  { (createSubAgent emptyStore
      { sessionId := "s1", type := "test-runner",
        description := "run tests" } ("a1") 0).1 with
    contextUsed := 100, totalTokens := 100, totalCost := 1 }

/-- A store holding the busy session and the busy sub-agent. -/
def metricsStore : Store :=
  { sessions := [("s1", busySession)], subAgents := [("a1", busySubAgent)] }

/-- A session that ended in error and saved a continuation token. -/
def erroredSession : Session :=
  { freshSession with
      status := SessionStatus.error
      error := some ("boom")
      sdkSessionId := some ("tok-1") }

/-- A store holding the errored session. -/
def erroredStore : Store :=
  { sessions := [("s1", erroredSession)], subAgents := [] }

/-- The arguments of one addSessionMessage call. -/
structure MessageInput where
  type : String
  content : String
  subtype : Option String
  metadata : Option Json
  now : Nat

/-- The log entry an addSessionMessage call appends for one input. -/
def msgOfInput (mi : MessageInput) : SessionMessage :=
  { timestamp := mi.now, type := mi.type, subtype := mi.subtype,
    content := mi.content, metadata := mi.metadata }

/-- A finite sequence of addSessionMessage calls against one session. -/
def appendAll (st : Store) (sid : String) (items : List MessageInput) :
    Store :=
  match items with
  | [] => st
  | mi :: rest =>
    appendAll
      (addSessionMessage st sid mi.type mi.content mi.subtype mi.metadata
        mi.now) sid rest

/-- Two sample appended messages. -/
def sampleInputs : List MessageInput :=
  [{ type := "user", content := "hi", subtype := none, metadata := none,
     now := 4 },
   { type := "assistant", content := "yo", subtype := some ("reply"),
     metadata := some (Json.obj []), now := 5 }]

/-- Scenario A events: an init event, one assistant turn with 100 input and
50 output tokens, one success result carrying only total_cost_usd 0.002. -/
def scenarioAEvents : List (SdkMessage × String × Nat) :=
  [(SdkMessage.systemInit none none none, "u1", 1),
   (SdkMessage.assistant (AssistantPayload.obj
      (some [ContentBlock.text ("done")])
      (some { input_tokens := some 100, output_tokens := some 50 })
      none none), "u2", 2),
   (SdkMessage.result ("success") none (some ((2 : Rat)/1000)) none none none,
    "u3", 3)]

/-- The store after scenario A runs against the fresh session. -/
def scenarioAFinal : Store :=
  (processSessionMessages ("s1") scenarioAEvents
    { store := oneSessionStore, currentSubAgentId := none }).store

/-- Scenario B spawn step for a test-runner sub-agent. -/
def scenarioBSpawn : RunState :=
  processOneMessage ("s1")
    (SdkMessage.streamEvent ("tool_use") (some ("Task"))
      (some { subagent_type := some ("test-runner"),
              description := some ("run tests") }) (""))
    ("a1") 1 { store := oneSessionStore, currentSubAgentId := none }

/-- Scenario B after the matching tool result whose output is empty. -/
def scenarioBResult : RunState :=
  processOneMessage ("s1")
    (SdkMessage.streamEvent ("tool_result") (some ("Task")) none (""))
    ("a2") 2 scenarioBSpawn

/-- Scenario C: a stream that closes without any terminal result event. -/
def scenarioCFinal : Store :=
  runSessionInBackground ("s1")
    [(SdkMessage.systemInit none none none, "u1", 1)]
    StreamEnd.closed 9 oneSessionStore

/-- A fresh session carrying a given status. -/
def statusSession (s : SessionStatus) : Session :=
  { freshSession with status := s }

/-! ### Basic facts about the association map -/

/-- Lookup after set: the set key now maps to the new value, all other keys
are untouched. -/
theorem lookupA_setA {α : Type} (m : AssocMap α) (k x : String) (v : α) :
    lookupA (setA m k v) x = if k = x then some v else lookupA m x := by
  induction m with
  | nil =>
    by_cases hx : k = x <;> simp [setA, lookupA, hx]
  | cons hd tl ih =>
    obtain ⟨k', v'⟩ := hd
    by_cases hk : k' = k
    · subst hk
      by_cases hx : k' = x <;> simp [setA, lookupA, hx]
    · by_cases hx : k' = x
      · subst hx
        have hkx : ¬ k = k' := fun h => hk h.symm
        simp [setA, lookupA, hk, hkx]
      · simp [setA, lookupA, hk, hx, ih]

/-- Setting an absent key appends the binding at the end. -/
theorem setA_append_of_lookup_none {α : Type} (m : AssocMap α) (k : String)
    (v : α) (h : lookupA m k = none) : setA m k v = m ++ [(k, v)] := by
  induction m with
  | nil => simp [setA]
  | cons hd tl ih =>
    obtain ⟨k', v'⟩ := hd
    by_cases hk : k' = k
    · simp [lookupA, hk] at h
    · simp only [lookupA, if_neg hk] at h
      simp [setA, hk, ih h]

/-! ### Frame lemmas: which half of the store each operation touches -/

/-- addSessionMessage never touches the sub-agent map. -/
theorem addSessionMessage_subAgents (st : Store) (id type content : String)
    (subtype : Option String) (metadata : Option Json) (now : Nat) :
    (addSessionMessage st id type content subtype metadata now).subAgents =
      st.subAgents := by
  unfold addSessionMessage
  cases lookupA st.sessions id <;> rfl

/-- updateSession never touches the sub-agent map. -/
theorem updateSession_subAgents (st : Store) (id : String)
    (u : SessionUpdates) (now : Nat) :
    (updateSession st id u now).subAgents = st.subAgents := by
  unfold updateSession
  cases lookupA st.sessions id <;> rfl

/-- updateSessionStatus never touches the sub-agent map. -/
theorem updateSessionStatus_subAgents (st : Store) (id : String)
    (status : SessionStatus) (error : Option String) (now : Nat) :
    (updateSessionStatus st id status error now).subAgents = st.subAgents := by
  unfold updateSessionStatus
  cases lookupA st.sessions id
  · rfl
  · exact updateSession_subAgents ..

/-- updateSessionMetrics never touches the sub-agent map. -/
theorem updateSessionMetrics_subAgents (st : Store) (id : String)
    (d : MetricsData) (now : Nat) :
    (updateSessionMetrics st id d now).subAgents = st.subAgents := by
  unfold updateSessionMetrics
  cases lookupA st.sessions id <;> rfl

/-- updateSubAgent never touches the session map. -/
theorem updateSubAgent_sessions (st : Store) (id : String)
    (u : SubAgentUpdates) :
    (updateSubAgent st id u).sessions = st.sessions := by
  unfold updateSubAgent
  cases lookupA st.subAgents id <;> rfl

/-- updateSubAgentStatus never touches the session map. -/
theorem updateSubAgentStatus_sessions (st : Store) (id : String)
    (status : SubAgentStatus) (error result : Option String) (now : Nat) :
    (updateSubAgentStatus st id status error result now).sessions =
      st.sessions := by
  unfold updateSubAgentStatus
  cases lookupA st.subAgents id
  · rfl
  · exact updateSubAgent_sessions ..

/-- updateSubAgentMetrics never touches the session map. -/
theorem updateSubAgentMetrics_sessions (st : Store) (id : String)
    (d : SubAgentMetricsData) :
    (updateSubAgentMetrics st id d).sessions = st.sessions := by
  unfold updateSubAgentMetrics
  cases lookupA st.subAgents id <;> rfl

/-! ### Characterization of each mutating store operation on its target id -/

/-- What updateSessionStatus stores for a present session id. -/
theorem updateSessionStatus_lookup (st : Store) (id : String)
    (status : SessionStatus) (err : Option String) (now : Nat) (s : Session)
    (h : lookupA st.sessions id = some s) :
    lookupA (updateSessionStatus st id status err now).sessions id =
      some { s with
              status := status
              completedAt :=
                if status = SessionStatus.completed ∨
                    status = SessionStatus.error
                  then some now else s.completedAt
              error :=
                match err with
                | some e => if e = "" then s.error else some e
                | none => s.error
              updatedAt := now } := by
  unfold updateSessionStatus updateSession
  rw [h]
  by_cases hterm :
      status = SessionStatus.completed ∨ status = SessionStatus.error
  · cases err with
    | none => simp [lookupA_setA, hterm]
    | some e =>
      by_cases he : e = "" <;> simp [lookupA_setA, hterm, he]
  · cases err with
    | none => simp [lookupA_setA, hterm]
    | some e =>
      by_cases he : e = "" <;> simp [lookupA_setA, hterm, he]

/-- What updateSessionMetrics stores for a present session id. -/
theorem updateSessionMetrics_lookup (st : Store) (id : String)
    (d : MetricsData) (now : Nat) (s : Session)
    (h : lookupA st.sessions id = some s) :
    lookupA (updateSessionMetrics st id d now).sessions id =
      some { s with
              contextUsed := d.contextUsed.getD s.contextUsed
              totalTokens := d.totalTokens.getD s.totalTokens
              totalCost := d.totalCost.getD s.totalCost
              sdkSessionId :=
                match d.sdkSessionId with
                | some v => if v = "" then s.sdkSessionId else some v
                | none => s.sdkSessionId
              updatedAt := now } := by
  unfold updateSessionMetrics
  rw [h]
  cases hc : d.contextUsed <;> cases ht : d.totalTokens <;>
    cases hk : d.totalCost <;> cases hs : d.sdkSessionId <;>
    simp [lookupA_setA, hc, ht, hk, hs]
  all_goals
    rename_i v
    by_cases hv : v = "" <;> simp [hv]

/-- What addSessionMessage stores for a present session id. -/
theorem addSessionMessage_lookup (st : Store) (id type content : String)
    (subtype : Option String) (metadata : Option Json) (now : Nat)
    (s : Session) (h : lookupA st.sessions id = some s) :
    lookupA (addSessionMessage st id type content subtype metadata now).sessions
        id =
      some { s with
              messages := s.messages ++
                [{ timestamp := now, type := type, subtype := subtype,
                   content := content, metadata := metadata }]
              updatedAt := now } := by
  unfold addSessionMessage
  rw [h]
  simp [lookupA_setA]

/-- addSessionMessage leaves sessions other than the target id untouched. -/
theorem addSessionMessage_lookup_other (st : Store)
    (id type content : String) (subtype : Option String)
    (metadata : Option Json) (now : Nat) (x : String) (hx : id ≠ x) :
    lookupA (addSessionMessage st id type content subtype metadata now).sessions
        x = lookupA st.sessions x := by
  unfold addSessionMessage
  cases lookupA st.sessions id <;> simp [lookupA_setA, hx]

/-- What updateSubAgentStatus stores for a present sub-agent id. -/
theorem updateSubAgentStatus_lookup (st : Store) (id : String)
    (status : SubAgentStatus) (err res : Option String) (now : Nat)
    (sa : SubAgent) (h : lookupA st.subAgents id = some sa) :
    lookupA (updateSubAgentStatus st id status err res now).subAgents id =
      some { sa with
              status := status
              completedAt :=
                if status = SubAgentStatus.completed ∨
                    status = SubAgentStatus.error
                  then some now else sa.completedAt
              error :=
                match err with
                | some e => if e = "" then sa.error else some e
                | none => sa.error
              result :=
                match res with
                | some r => if r = "" then sa.result else some r
                | none => sa.result } := by
  unfold updateSubAgentStatus updateSubAgent
  rw [h]
  by_cases hterm :
      status = SubAgentStatus.completed ∨ status = SubAgentStatus.error
  · cases err with
    | none =>
      cases res with
      | none => simp [lookupA_setA, hterm]
      | some r => by_cases hr : r = "" <;> simp [lookupA_setA, hterm, hr]
    | some e =>
      by_cases he : e = "" <;> cases res with
      | none => simp [lookupA_setA, hterm, he]
      | some r => by_cases hr : r = "" <;> simp [lookupA_setA, hterm, he, hr]
  · cases err with
    | none =>
      cases res with
      | none => simp [lookupA_setA, hterm]
      | some r => by_cases hr : r = "" <;> simp [lookupA_setA, hterm, hr]
    | some e =>
      by_cases he : e = "" <;> cases res with
      | none => simp [lookupA_setA, hterm, he]
      | some r => by_cases hr : r = "" <;> simp [lookupA_setA, hterm, he, hr]

/-- What updateSubAgentMetrics stores for a present sub-agent id. -/
theorem updateSubAgentMetrics_lookup (st : Store) (id : String)
    (d : SubAgentMetricsData) (sa : SubAgent)
    (h : lookupA st.subAgents id = some sa) :
    lookupA (updateSubAgentMetrics st id d).subAgents id =
      some { sa with
              contextUsed := d.contextUsed.getD sa.contextUsed
              totalTokens := d.totalTokens.getD sa.totalTokens
              totalCost := d.totalCost.getD sa.totalCost } := by
  unfold updateSubAgentMetrics
  rw [h]
  cases hc : d.contextUsed <;> cases ht : d.totalTokens <;>
    cases hk : d.totalCost <;> simp [lookupA_setA, hc, ht, hk]

/-! ### Presence of a session id is preserved by every normalizer effect -/

/-- Setting any key keeps every present key present. -/
theorem isSome_lookupA_setA {α : Type} (m : AssocMap α) (k x : String)
    (v : α) (h : (lookupA m x).isSome = true) :
    (lookupA (setA m k v) x).isSome = true := by
  rw [lookupA_setA]
  by_cases hk : k = x <;> simp [hk, h]

/-- addSessionMessage keeps every present session present. -/
theorem addSessionMessage_preserves (st : Store) (id type content : String)
    (subtype : Option String) (metadata : Option Json) (now : Nat)
    (x : String) (h : (lookupA st.sessions x).isSome = true) :
    (lookupA (addSessionMessage st id type content subtype metadata now).sessions
      x).isSome = true := by
  unfold addSessionMessage
  cases hl : lookupA st.sessions id
  · exact h
  · exact isSome_lookupA_setA _ _ _ _ h

/-- updateSession keeps every present session present. -/
theorem updateSession_preserves (st : Store) (id : String)
    (u : SessionUpdates) (now : Nat) (x : String)
    (h : (lookupA st.sessions x).isSome = true) :
    (lookupA (updateSession st id u now).sessions x).isSome = true := by
  unfold updateSession
  cases hl : lookupA st.sessions id
  · exact h
  · exact isSome_lookupA_setA _ _ _ _ h

/-- updateSessionStatus keeps every present session present. -/
theorem updateSessionStatus_preserves (st : Store) (id : String)
    (status : SessionStatus) (error : Option String) (now : Nat) (x : String)
    (h : (lookupA st.sessions x).isSome = true) :
    (lookupA (updateSessionStatus st id status error now).sessions x).isSome =
      true := by
  unfold updateSessionStatus
  cases hl : lookupA st.sessions id
  · exact h
  · exact updateSession_preserves _ _ _ _ _ h

/-- updateSessionMetrics keeps every present session present. -/
theorem updateSessionMetrics_preserves (st : Store) (id : String)
    (d : MetricsData) (now : Nat) (x : String)
    (h : (lookupA st.sessions x).isSome = true) :
    (lookupA (updateSessionMetrics st id d now).sessions x).isSome = true := by
  unfold updateSessionMetrics
  cases hl : lookupA st.sessions id
  · exact h
  · exact isSome_lookupA_setA _ _ _ _ h

/-- createSubAgent keeps every present session present. -/
theorem createSubAgent_preserves (st : Store) (d : CreateSubAgentData)
    (id : String) (now : Nat) (x : String)
    (h : (lookupA st.sessions x).isSome = true) :
    (lookupA (createSubAgent st d id now).2.sessions x).isSome = true := by
  unfold createSubAgent
  cases hl : lookupA st.sessions d.sessionId <;> simp only [hl]
  · exact h
  · exact isSome_lookupA_setA _ _ _ _ h

/-- Presence goes through a conditional run state whose branches both
preserve it. -/
theorem ite_runstate_preserves (c : Prop) [Decidable c] (a b : RunState)
    (x : String)
    (ha : (lookupA a.store.sessions x).isSome = true)
    (hb : (lookupA b.store.sessions x).isSome = true) :
    (lookupA (if c then a else b).store.sessions x).isSome = true := by
  by_cases h : c <;> simp [h, ha, hb]

/-- Processing one upstream message keeps every present session present: no
branch of the normalizer ever deletes a session record. -/
theorem processOneMessage_preserves (sid : String) (msg : SdkMessage)
    (f : String) (now : Nat) (rs : RunState) (x : String)
    (h : (lookupA rs.store.sessions x).isSome = true) :
    (lookupA (processOneMessage sid msg f now rs).store.sessions x).isSome =
      true := by
  cases msg with
  | systemInit m t a =>
    simp only [processOneMessage]
    exact ite_runstate_preserves _ _ _ _ h
      (addSessionMessage_preserves _ _ _ _ _ _ _ _ h)
  | assistant p =>
    cases p with
    | str s =>
      simp only [processOneMessage]
      exact ite_runstate_preserves _ _ _ _ h
        (addSessionMessage_preserves _ _ _ _ _ _ _ _ h)
    | obj c u m i =>
      cases u with
      | none =>
        simp only [processOneMessage]
        exact ite_runstate_preserves _ _ _ _ h
          (addSessionMessage_preserves _ _ _ _ _ _ _ _ h)
      | some usage =>
        simp only [processOneMessage]
        exact ite_runstate_preserves _ _ _ _
          (updateSessionMetrics_preserves _ _ _ _ _ h)
          (addSessionMessage_preserves _ _ _ _ _ _ _ _
            (updateSessionMetrics_preserves _ _ _ _ _ h))
  | streamEvent et tn ti out =>
    by_cases h1 : et = "tool_use" ∧ tn = some ("Task")
    · simp only [processOneMessage, if_pos h1]
      exact ite_runstate_preserves _ _ _ _
        (createSubAgent_preserves _ _ _ _ _ h)
        (addSessionMessage_preserves _ _ _ _ _ _ _ _
          (createSubAgent_preserves _ _ _ _ _ h))
    · by_cases h2 : et = "tool_result" ∧ tn = some ("Task") ∧
          (rs.currentSubAgentId.getD "") ≠ ""
      · simp only [processOneMessage, if_neg h1, if_pos h2]
        refine ite_runstate_preserves _ _ _ _ ?_
          (addSessionMessage_preserves _ _ _ _ _ _ _ _ ?_) <;>
          (rw [updateSubAgentStatus_sessions]; exact h)
      · simp only [processOneMessage, if_neg h1, if_neg h2]
        exact ite_runstate_preserves _ _ _ _ h
          (addSessionMessage_preserves _ _ _ _ _ _ _ _ h)
  | result subtype u cost dur sdkSid errs =>
    by_cases hs : subtype = "success"
    · simp only [processOneMessage, if_pos hs]
      exact ite_runstate_preserves _ _ _ _
        (updateSessionMetrics_preserves _ _ _ _ _
          (updateSessionStatus_preserves _ _ _ _ _ _ h))
        (addSessionMessage_preserves _ _ _ _ _ _ _ _
          (updateSessionMetrics_preserves _ _ _ _ _
            (updateSessionStatus_preserves _ _ _ _ _ _ h)))
    · simp only [processOneMessage, if_neg hs]
      exact ite_runstate_preserves _ _ _ _
        (updateSessionStatus_preserves _ _ _ _ _ _ h)
        (addSessionMessage_preserves _ _ _ _ _ _ _ _
          (updateSessionStatus_preserves _ _ _ _ _ _ h))
  | other ty s =>
    simp only [processOneMessage]
    exact ite_runstate_preserves _ _ _ _ h
      (addSessionMessage_preserves _ _ _ _ _ _ _ _ h)

/-- Processing a whole event prefix keeps every present session present. -/
theorem processSessionMessages_preserves (sid : String)
    (events : List (SdkMessage × String × Nat)) (rs : RunState) (x : String)
    (h : (lookupA rs.store.sessions x).isSome = true) :
    (lookupA (processSessionMessages sid events rs).store.sessions x).isSome =
      true := by
  induction events generalizing rs with
  | nil => exact h
  | cons ev rest ih =>
    exact ih _ (processOneMessage_preserves _ _ _ _ _ _ h)

/-! ### Small string facts -/

/-- A JS substring of the first n characters has length at most n. -/
theorem jsTake_length_le (s : String) (n : Nat) : (jsTake s n).length ≤ n := by
  show (s.data.take n).length ≤ n
  simp [List.length_take]

/-- A JS substring of a non-empty string is non-empty when n is positive. -/
theorem jsTake_ne_empty (s : String) (n : Nat) (hs : s ≠ "") (hn : 0 < n) :
    jsTake s n ≠ "" := by
  intro hEq
  apply hs
  have hdata : s.data.take n = [] := congrArg String.data hEq
  rcases List.take_eq_nil_iff.mp hdata with h | h
  · omega
  · obtain ⟨l⟩ := s
    cases l with
    | nil => rfl
    | cons c cs => simp at h

/-- Appending to a non-empty string keeps it non-empty. -/
theorem append_ne_empty_left (a b : String) (h : a ≠ "") : a ++ b ≠ "" := by
  intro hEq
  apply h
  have hdata : a.data ++ b.data = [] := by
    have := congrArg String.data hEq
    simpa [String.data_append] using this
  obtain ⟨l⟩ := a
  simp at hdata
  simp [hdata.1]

/-! ### The claims -/

/-- C10: createSession stores the full prompt as the description and derives
the title from the first line of the prompt, keeping the line itself when its
length is at most 50 and otherwise truncating to the first 50 characters plus
an ellipsis, so the title never exceeds 53 characters; the new session starts
active with zero metrics, a 200000 max context budget, and empty message and
sub-agent lists, and is stored under the generated id. -/
theorem claim_C10 (st : Store) (data : CreateSessionData) (id : String)
    (now : Nat) :
    (createSession st data id now).1.description = data.prompt ∧
    ((jsFirstLine data.prompt).length ≤ 50 →
      (createSession st data id now).1.title = jsFirstLine data.prompt) ∧
    (50 < (jsFirstLine data.prompt).length →
      (createSession st data id now).1.title =
        jsTake (jsFirstLine data.prompt) 50 ++ "...") ∧
    (createSession st data id now).1.title.length ≤ 53 ∧
    (createSession st data id now).1.status = SessionStatus.active ∧
    (createSession st data id now).1.contextUsed = 0 ∧
    (createSession st data id now).1.totalTokens = 0 ∧
    (createSession st data id now).1.totalCost = 0 ∧
    (createSession st data id now).1.maxContext = 200000 ∧
    (createSession st data id now).1.messages = [] ∧
    (createSession st data id now).1.subAgents = [] ∧
    lookupA (createSession st data id now).2.sessions id =
      some (createSession st data id now).1 := by
  refine ⟨rfl, ?_, ?_, ?_, rfl, rfl, rfl, rfl, rfl, rfl, rfl, ?_⟩
  · intro h
    show extractTitle data.prompt = jsFirstLine data.prompt
    simp [extractTitle, Nat.not_lt.mpr h]
  · intro h
    show extractTitle data.prompt = jsTake (jsFirstLine data.prompt) 50 ++ "..."
    simp [extractTitle, h]
  · show (extractTitle data.prompt).length ≤ 53
    by_cases h : 50 < (jsFirstLine data.prompt).length
    · have h1 : (jsTake (jsFirstLine data.prompt) 50).length ≤ 50 :=
        jsTake_length_le _ _
    
      have h2 : extractTitle data.prompt =
          jsTake (jsFirstLine data.prompt) 50 ++ "..." := by
        simp [extractTitle, h]
      rw [h2, String.length_append]
      have h3 : ("..." : String).length = 3 := rfl
      omega
    · have h2 : extractTitle data.prompt = jsFirstLine data.prompt := by
        simp [extractTitle, h]
      rw [h2]
      omega
  · show lookupA (setA st.sessions id _) id = some _
    rw [lookupA_setA, if_pos rfl]
    rfl

/-- C10 witness: the theorem applied at a short one-line prompt and at a
prompt whose first line has 60 characters. -/
theorem claim_C10_witness :
    ((jsFirstLine ("fix bug")).length ≤ 50 ∧
      (createSession emptyStore
        { githubRepo := "octo/demo", workspacePath := "/ws/demo",
          gitBranch := "session-1", prompt := "fix bug" } ("s1") 0).1.title =
        jsFirstLine ("fix bug")) ∧
    (50 <
        (jsFirstLine
          ("aaaaaaaaaaaaaaaaaaaaaaaaaaaaaaaaaaaaaaaaaaaaaaaaaaaaaaaaaaaa")).length ∧
      (createSession emptyStore
        { githubRepo := "octo/demo", workspacePath := "/ws/demo",
          gitBranch := "session-1",
          prompt :=
            "aaaaaaaaaaaaaaaaaaaaaaaaaaaaaaaaaaaaaaaaaaaaaaaaaaaaaaaaaaaa" }
        ("s2") 0).1.title =
        jsTake
          (jsFirstLine
            ("aaaaaaaaaaaaaaaaaaaaaaaaaaaaaaaaaaaaaaaaaaaaaaaaaaaaaaaaaaaa"))
          50 ++ "...") :=
  ⟨⟨by decide, (claim_C10 emptyStore
      { githubRepo := "octo/demo", workspacePath := "/ws/demo",
        gitBranch := "session-1", prompt := "fix bug" } ("s1") 0).2.1
      (by decide)⟩,
   ⟨by decide, (claim_C10 emptyStore
      { githubRepo := "octo/demo", workspacePath := "/ws/demo",
        gitBranch := "session-1",
        prompt :=
          "aaaaaaaaaaaaaaaaaaaaaaaaaaaaaaaaaaaaaaaaaaaaaaaaaaaaaaaaaaaa" }
      ("s2") 0).2.2.1 (by decide)⟩⟩

/-- C3: continueSession on a stored session whose continuation token is
absent returns the explicit "Session cannot be resumed" failure, leaves the
store exactly as it was, and starts no run. -/
theorem claim_C3 (st : Store) (sessionId prompt : String) (repoExists : Bool)
    (now : Nat) (s : Session)
    (hs : lookupA st.sessions sessionId = some s)
    (htok : s.sdkSessionId = none) :
    continueSession st sessionId prompt repoExists now =
      { result := ActionResult.failure ("Session cannot be resumed"),
        store := st, runStarted := false } := by
  unfold continueSession getSession
  rw [hs]
  simp [htok]

/-- C3 witness: the fresh session has no continuation token and the failure
result leaves the one-session store untouched. -/
theorem claim_C3_witness :
    lookupA oneSessionStore.sessions ("s1") = some freshSession ∧
    freshSession.sdkSessionId = none ∧
    continueSession oneSessionStore ("s1") ("more work") true 5 =
      { result := ActionResult.failure ("Session cannot be resumed"),
        store := oneSessionStore, runStarted := false } :=
  ⟨rfl, rfl, claim_C3 oneSessionStore ("s1") ("more work") true 5
    freshSession rfl rfl⟩

/-- C7 counterexample: supplying the empty error string to updateSessionStatus
does not record it; the stored error stays none instead of becoming the
supplied string, so the claim that a supplied error string is always recorded
fails. -/
theorem claim_C7_counterexample :
    (lookupA (updateSessionStatus oneSessionStore ("s1") SessionStatus.error
        (some ("")) 7).sessions ("s1")).map Session.error = some none ∧
    (lookupA (updateSessionStatus oneSessionStore ("s1") SessionStatus.error
        (some ("")) 7).sessions ("s1")).map Session.error ≠
      some (some ("")) := by
  constructor
  · rfl
  · decide

/-- C7 (amended): updateSessionStatus on a stored id sets the status, stamps
completedAt with the current time for terminal statuses, records a supplied
error string when it is non-empty (an empty string is ignored and the
previous error value is kept), and leaves every metric field unchanged. -/
theorem claim_C7_amended (st : Store) (id : String) (status : SessionStatus)
    (err : Option String) (now : Nat) (s : Session)
    (hs : lookupA st.sessions id = some s) :
    ∃ s', lookupA (updateSessionStatus st id status err now).sessions id =
        some s' ∧
      s'.status = status ∧
      ((status = SessionStatus.completed ∨ status = SessionStatus.error) →
        s'.completedAt = some now) ∧
      (∀ e, err = some e → e ≠ "" → s'.error = some e) ∧
      (err = some ("") → s'.error = s.error) ∧
      s'.contextUsed = s.contextUsed ∧
      s'.maxContext = s.maxContext ∧
      s'.totalTokens = s.totalTokens ∧
      s'.totalCost = s.totalCost := by
  refine ⟨_, updateSessionStatus_lookup st id status err now s hs,
    rfl, ?_, ?_, ?_, rfl, rfl, rfl, rfl⟩
  · intro hterm
    simp [hterm]
  · intro e he hne
    simp [he, hne]
  · intro h0
    simp [h0]

/-- C7 witness: the amended theorem applied to the fresh session with status
completed and the error string oops. -/
theorem claim_C7_witness :
    lookupA oneSessionStore.sessions ("s1") = some freshSession ∧
    (∃ s', lookupA (updateSessionStatus oneSessionStore ("s1")
          SessionStatus.completed (some ("oops")) 3).sessions ("s1") =
        some s' ∧
      s'.status = SessionStatus.completed ∧
      ((SessionStatus.completed = SessionStatus.completed ∨
          SessionStatus.completed = SessionStatus.error) →
        s'.completedAt = some 3) ∧
      (∀ e, some ("oops") = some e → e ≠ "" → s'.error = some e) ∧
      (some ("oops") = some ("") → s'.error = freshSession.error) ∧
      s'.contextUsed = freshSession.contextUsed ∧
      s'.maxContext = freshSession.maxContext ∧
      s'.totalTokens = freshSession.totalTokens ∧
      s'.totalCost = freshSession.totalCost) :=
  ⟨rfl, claim_C7_amended oneSessionStore ("s1") SessionStatus.completed
    (some ("oops")) 3 freshSession rfl⟩

/-- C1 counterexample: updating metrics with a value smaller than the stored
one drops the stored value to the smaller one, for the session and for the
sub-agent alike: the stored 100 becomes 50. -/
theorem claim_C1_counterexample :
    (lookupA metricsStore.sessions ("s1")).map Session.totalTokens =
      some 100 ∧
    (lookupA (updateSessionMetrics metricsStore ("s1")
        { totalTokens := some 50 } 1).sessions ("s1")).map
      Session.totalTokens = some 50 ∧
    (lookupA metricsStore.subAgents ("a1")).map SubAgent.totalTokens =
      some 100 ∧
    (lookupA (updateSubAgentMetrics metricsStore ("a1")
        { totalTokens := some 50 }).subAgents ("a1")).map
      SubAgent.totalTokens = some 50 := by
  refine ⟨rfl, ?_, rfl, ?_⟩ <;> decide

/-- C1 (amended): updateSessionMetrics and updateSubAgentMetrics overwrite
each supplied metric field with exactly the supplied value, whether larger or
smaller than the stored one (last write wins); fields that are not supplied
stay unchanged. -/
theorem claim_C1_amended (st : Store) (sid said : String) (s : Session)
    (sa : SubAgent) (c t : Nat) (k : Rat) (now : Nat)
    (hs : lookupA st.sessions sid = some s)
    (ha : lookupA st.subAgents said = some sa) :
    (∃ s', lookupA (updateSessionMetrics st sid
        { contextUsed := some c, totalTokens := some t, totalCost := some k }
        now).sessions sid = some s' ∧
      s'.contextUsed = c ∧ s'.totalTokens = t ∧ s'.totalCost = k ∧
      s'.sdkSessionId = s.sdkSessionId) ∧
    (∃ sa', lookupA (updateSubAgentMetrics st said
        { contextUsed := some c, totalTokens := some t,
          totalCost := some k }).subAgents said = some sa' ∧
      sa'.contextUsed = c ∧ sa'.totalTokens = t ∧ sa'.totalCost = k) := by
  constructor
  · exact ⟨_, updateSessionMetrics_lookup st sid
      { contextUsed := some c, totalTokens := some t, totalCost := some k }
      now s hs, rfl, rfl, rfl, rfl⟩
  · exact ⟨_, updateSubAgentMetrics_lookup st said
      { contextUsed := some c, totalTokens := some t, totalCost := some k }
      sa ha, rfl, rfl, rfl⟩

/-- C1 witness: the amended theorem applied to the metrics store with the
smaller values 1, 2 and cost 1. -/
theorem claim_C1_witness :
    lookupA metricsStore.sessions ("s1") = some busySession ∧
    lookupA metricsStore.subAgents ("a1") = some busySubAgent ∧
    ((∃ s', lookupA (updateSessionMetrics metricsStore ("s1")
        { contextUsed := some 1, totalTokens := some 2, totalCost := some 1 }
        9).sessions ("s1") = some s' ∧
      s'.contextUsed = 1 ∧ s'.totalTokens = 2 ∧ s'.totalCost = 1 ∧
      s'.sdkSessionId = busySession.sdkSessionId) ∧
    (∃ sa', lookupA (updateSubAgentMetrics metricsStore ("a1")
        { contextUsed := some 1, totalTokens := some 2,
          totalCost := some 1 }).subAgents ("a1") = some sa' ∧
      sa'.contextUsed = 1 ∧ sa'.totalTokens = 2 ∧ sa'.totalCost = 1)) :=
  ⟨rfl, rfl, claim_C1_amended metricsStore ("s1") ("a1") busySession
    busySubAgent 1 2 1 9 rfl rfl⟩

/-- C8 counterexample: continuing a session that sits in status error flips
it to active but leaves the old error message in place, so the error field is
non-null while the status is no longer error. -/
theorem claim_C8_counterexample :
    (lookupA (continueSession erroredStore ("s1") ("try again") true
        7).store.sessions ("s1")).map Session.status =
      some SessionStatus.active ∧
    (lookupA (continueSession erroredStore ("s1") ("try again") true
        7).store.sessions ("s1")).map Session.error =
      some (some ("boom")) ∧
    (lookupA (continueSession erroredStore ("s1") ("try again") true
        7).store.sessions ("s1")).map Session.error ≠ some none := by
  refine ⟨?_, ?_, ?_⟩ <;> decide

/-- C8 (amended): the error field of a session is never cleared by a later
status transition: a successful continuation flips the status to active and
keeps the stored error unchanged, and a later transition to completed also
keeps it, so a stale error may coexist with a non-error status. -/
theorem claim_C8_amended (st : Store) (sid prompt : String) (now : Nat)
    (s : Session) (tok : String)
    (hs : lookupA st.sessions sid = some s)
    (htok : s.sdkSessionId = some tok) (hne : tok ≠ "") :
    (∃ s', lookupA (continueSession st sid prompt true now).store.sessions
        sid = some s' ∧
      s'.status = SessionStatus.active ∧ s'.error = s.error) ∧
    (∃ s'', lookupA (updateSessionStatus st sid SessionStatus.completed none
        now).sessions sid = some s'' ∧
      s''.status = SessionStatus.completed ∧ s''.error = s.error) := by
  constructor
  · unfold continueSession getSession
    rw [hs]
    simp only [htok, Option.getD_some, if_neg hne]
    have h1 := updateSessionStatus_lookup st sid SessionStatus.active none
      now s hs
    have h2 := addSessionMessage_lookup _ sid ("user") prompt none none now
      _ h1
    simp only [Bool.true_eq_false, if_false, ite_false]
    exact ⟨_, h2, rfl, rfl⟩
  · have h := updateSessionStatus_lookup st sid SessionStatus.completed none
      now s hs
    exact ⟨_, h, rfl, rfl⟩

/-- C8 witness: the amended theorem applied to the errored session with its
saved token. -/
theorem claim_C8_witness :
    lookupA erroredStore.sessions ("s1") = some erroredSession ∧
    erroredSession.sdkSessionId = some ("tok-1") ∧
    ("tok-1" : String) ≠ "" ∧
    ((∃ s', lookupA (continueSession erroredStore ("s1") ("go on")
        true 11).store.sessions ("s1") = some s' ∧
      s'.status = SessionStatus.active ∧ s'.error = erroredSession.error) ∧
    (∃ s'', lookupA (updateSessionStatus erroredStore ("s1")
        SessionStatus.completed none 11).sessions ("s1") = some s'' ∧
      s''.status = SessionStatus.completed ∧
      s''.error = erroredSession.error)) :=
  ⟨rfl, rfl, by decide, claim_C8_amended erroredStore ("s1") ("go on") 11
    erroredSession ("tok-1") rfl rfl (by decide)⟩

/-- Appending a list of messages to a stored session accumulates exactly the
corresponding log entries, in order. -/
theorem appendAll_lookup (st : Store) (sid : String)
    (items : List MessageInput) (s0 : Session)
    (h : lookupA st.sessions sid = some s0) :
    ∃ s1, lookupA (appendAll st sid items).sessions sid = some s1 ∧
      s1.messages = s0.messages ++ items.map msgOfInput := by
  induction items generalizing st s0 with
  | nil => exact ⟨s0, h, by simp⟩
  | cons mi rest ih =>
    have h1 := addSessionMessage_lookup st sid mi.type mi.content mi.subtype
      mi.metadata mi.now s0 h
    obtain ⟨s1, hl, hm⟩ := ih _ _ h1
    refine ⟨s1, hl, ?_⟩
    rw [hm]
    simp [msgOfInput]

/-- C9: appending any finite sequence of messages to a stored session and
then reading the session back yields exactly those appended messages after
the prior log, in the same order, with type, subtype, content and metadata
unchanged. -/
theorem claim_C9 (st : Store) (sid : String) (items : List MessageInput)
    (s : Session) (hs : getSession st sid = some s) :
    (getSession (appendAll st sid items) sid).map Session.messages =
      some (s.messages ++ items.map msgOfInput) := by
  unfold getSession at hs
  cases hl : lookupA st.sessions sid with
  | none => rw [hl] at hs; exact absurd hs (by simp)
  | some s0 =>
    rw [hl] at hs
    have heq := Option.some.inj hs
    have hmsg : s.messages = s0.messages := by rw [← heq]
    obtain ⟨s1, h1, hm⟩ := appendAll_lookup st sid items s0 hl
    unfold getSession
    rw [h1]
    simp [hm, hmsg]

/-- C9 witness: two messages appended to the fresh session read back exactly
as appended. -/
theorem claim_C9_witness :
    getSession oneSessionStore ("s1") = some freshSession ∧
    (getSession (appendAll oneSessionStore ("s1") sampleInputs)
        ("s1")).map Session.messages =
      some (freshSession.messages ++ sampleInputs.map msgOfInput) :=
  ⟨rfl, claim_C9 oneSessionStore ("s1") sampleInputs freshSession rfl⟩

/-- C2 counterexample: after scenario A the stored total token count is 0,
not 150 — the terminal success result carries no usage fields, and its
authoritative overwrite zeroes the counter that the assistant turn had set to
150. -/
theorem claim_C2_counterexample :
    (getSession scenarioAFinal ("s1")).map Session.totalTokens = some 0 ∧
    (getSession scenarioAFinal ("s1")).map Session.totalTokens ≠
      some 150 := by
  refine ⟨?_, ?_⟩ <;> decide

/-- C2 (amended): processing, for a freshly created session, an init event,
one assistant turn with 100 input and 50 output tokens, and a terminal
success result carrying only total_cost_usd, leaves the session completed
with exactly three log entries in order (init, assistant, success summary);
the total token count ends at 0 because the terminal overwrite uses the
(empty) usage of the result event, and the intermediate assistant update did
set it to 150. -/
theorem claim_C2_amended :
    (getSession scenarioAFinal ("s1")).map Session.status =
      some SessionStatus.completed ∧
    (getSession scenarioAFinal ("s1")).map Session.totalTokens = some 0 ∧
    (lookupA (processSessionMessages ("s1") (scenarioAEvents.take 2)
        { store := oneSessionStore,
          currentSubAgentId := none }).store.sessions ("s1")).map
      Session.totalTokens = some 150 ∧
    (getSession scenarioAFinal ("s1")).map
        (fun s => s.messages.map (fun m => (m.type, m.subtype))) =
      some [("system", some ("init")), ("assistant", none),
            ("result", some ("success"))] := by
  refine ⟨?_, ?_, ?_, ?_⟩ <;> decide

/-- createSubAgent registers the new record in the sub-agent map and touches
nothing else there. -/
theorem createSubAgent_subAgents (st : Store) (d : CreateSubAgentData)
    (id : String) (now : Nat) :
    (createSubAgent st d id now).2.subAgents =
      setA st.subAgents id (createSubAgent st d id now).1 := by
  unfold createSubAgent
  cases hl : lookupA st.sessions d.sessionId <;> simp only [hl]

/-- C4 counterexample: a tool result with an empty output closes the open
sub-agent (status completed) but stores no result string at all, where the
claim promises a stored result string truncated to 1000 characters. -/
theorem claim_C4_counterexample :
    (lookupA scenarioBResult.store.subAgents ("a1")).map SubAgent.status =
      some SubAgentStatus.completed ∧
    (lookupA scenarioBResult.store.subAgents ("a1")).map SubAgent.result =
      some none ∧
    (lookupA scenarioBResult.store.subAgents ("a1")).map SubAgent.result ≠
      some (some ("")) ∧
    scenarioBResult.currentSubAgentId = none := by
  refine ⟨?_, ?_, ?_, ?_⟩ <;> decide

/-- C4 (amended): processing a tool-use event for the Task primitive creates
exactly one new SubAgent, parented to the session the event was processed
under, in status running with no completedAt and no result, and marks it as
the open sub-agent — all before any matching tool-result is processed; a
subsequent Task tool-result event marks that SubAgent completed, stamps its
completedAt, stores the output truncated to at most 1000 characters when the
output is non-empty, and clears the open marker. -/
theorem claim_C4_amended (st : Store) (cur : Option String)
    (sid f f2 out : String) (ti : Option ToolInput) (n1 n2 : Nat)
    (hf : lookupA st.subAgents f = none) (hf0 : f ≠ "") (hout : out ≠ "") :
    ∃ sa sa2,
      (processOneMessage sid (SdkMessage.streamEvent ("tool_use")
          (some ("Task")) ti ("")) f n1
        { store := st, currentSubAgentId := cur }).store.subAgents =
        st.subAgents ++ [(f, sa)] ∧
      (processOneMessage sid (SdkMessage.streamEvent ("tool_use")
          (some ("Task")) ti ("")) f n1
        { store := st, currentSubAgentId := cur }).currentSubAgentId =
        some f ∧
      sa.sessionId = sid ∧
      sa.status = SubAgentStatus.running ∧
      sa.completedAt = none ∧
      sa.result = none ∧
      lookupA (processOneMessage sid (SdkMessage.streamEvent ("tool_result")
          (some ("Task")) none out) f2 n2
        (processOneMessage sid (SdkMessage.streamEvent ("tool_use")
          (some ("Task")) ti ("")) f n1
          { store := st, currentSubAgentId := cur })).store.subAgents f =
        some sa2 ∧
      sa2.status = SubAgentStatus.completed ∧
      sa2.completedAt = some n2 ∧
      sa2.result = some (jsTake out 1000) ∧
      (jsTake out 1000).length ≤ 1000 ∧
      (processOneMessage sid (SdkMessage.streamEvent ("tool_result")
          (some ("Task")) none out) f2 n2
        (processOneMessage sid (SdkMessage.streamEvent ("tool_use")
          (some ("Task")) ti ("")) f n1
          { store := st, currentSubAgentId := cur })).currentSubAgentId =
        none := by
  have hlog1 : "🤖 Launching sub-agent: " ++
      jsOr (ti.bind fun x => x.subagent_type) ("unknown") ++ "\n📋 " ++
      jsOr (ti.bind fun x => x.description) ("Running task") ≠ "" := by
    apply append_ne_empty_left
    apply append_ne_empty_left
    apply append_ne_empty_left
    decide
  have hlog2 : "✅ Sub-agent completed: " ++ jsTake out 500 ≠ "" :=
    append_ne_empty_left _ _ (by decide)
  have hne1000 : jsTake out 1000 ≠ "" :=
    jsTake_ne_empty out 1000 hout (by decide)
  have hspawn : ∀ (st0 : Store) (cur0 : Option String),
      processOneMessage sid (SdkMessage.streamEvent ("tool_use")
        (some ("Task")) ti ("")) f n1
        { store := st0, currentSubAgentId := cur0 } =
      { store := addSessionMessage
          (createSubAgent st0
            { sessionId := sid,
              type := jsOr (ti.bind fun x => x.subagent_type) ("unknown"),
              description :=
                jsOr (ti.bind fun x => x.description) ("Running task") }
            f n1).2
          sid ("stream_event")
          ("🤖 Launching sub-agent: " ++
            jsOr (ti.bind fun x => x.subagent_type) ("unknown") ++
            "\n📋 " ++
            jsOr (ti.bind fun x => x.description) ("Running task"))
          none
          (some (Json.obj
            [("sub_agent_id", Json.str f),
             ("sub_agent_type",
              Json.str
                (jsOr (ti.bind fun x => x.subagent_type) ("unknown")))]))
          n1,
        currentSubAgentId := some f } := by
    intro st0 cur0
    simp only [processOneMessage, Option.getD_some]
    split_ifs <;> first
      | rfl
      | (exfalso; simp_all)
  have hresult : ∀ st' : Store,
      processOneMessage sid (SdkMessage.streamEvent ("tool_result")
        (some ("Task")) none out) f2 n2
        { store := st', currentSubAgentId := some f } =
      { store := addSessionMessage
          (updateSubAgentStatus st' f SubAgentStatus.completed none
            (some (jsTake out 1000)) n2)
          sid ("stream_event")
          ("✅ Sub-agent completed: " ++ jsTake out 500)
          none
          (some (Json.obj [("sub_agent_id", Json.str f)]))
          n2,
        currentSubAgentId := none } := by
    intro st'
    simp only [processOneMessage, Option.getD_some]
    split_ifs <;> first
      | rfl
      | (exfalso; simp_all)
  have hsub1 : lookupA ((processOneMessage sid (SdkMessage.streamEvent
      ("tool_use") (some ("Task")) ti ("")) f n1
      { store := st, currentSubAgentId := cur }).store.subAgents) f =
      some (createSubAgent st
        { sessionId := sid,
          type := jsOr (ti.bind fun x => x.subagent_type) ("unknown"),
          description :=
            jsOr (ti.bind fun x => x.description) ("Running task") }
        f n1).1 := by
    rw [hspawn, addSessionMessage_subAgents, createSubAgent_subAgents,
      lookupA_setA, if_pos rfl]
  refine ⟨(createSubAgent st
      { sessionId := sid,
        type := jsOr (ti.bind fun x => x.subagent_type) ("unknown"),
        description :=
          jsOr (ti.bind fun x => x.description) ("Running task") }
      f n1).1,
    { (createSubAgent st
        { sessionId := sid,
          type := jsOr (ti.bind fun x => x.subagent_type) ("unknown"),
          description :=
            jsOr (ti.bind fun x => x.description) ("Running task") }
        f n1).1 with
      status := SubAgentStatus.completed
      completedAt := some n2
      result := some (jsTake out 1000) },
    ?_, ?_, rfl, rfl, rfl, rfl, ?_, rfl, rfl, rfl, ?_, ?_⟩
  · rw [hspawn, addSessionMessage_subAgents, createSubAgent_subAgents]
    exact setA_append_of_lookup_none st.subAgents f _ hf
  · rw [hspawn]
  · rw [hspawn] at hsub1 ⊢
    rw [hresult, addSessionMessage_subAgents]
    rw [updateSubAgentStatus_lookup _ f SubAgentStatus.completed none
      (some (jsTake out 1000)) n2 _ hsub1]
    simp [hne1000]
  · exact jsTake_length_le out 1000
  · rw [hspawn, hresult]

/-- C4 witness: the amended theorem applied to the one-session store with a
fresh id and the non-empty output "all tests pass". -/
theorem claim_C4_witness :
    lookupA oneSessionStore.subAgents ("b1") = none ∧
    ("b1" : String) ≠ "" ∧ ("all tests pass" : String) ≠ "" ∧
    (∃ sa sa2,
      (processOneMessage ("s1") (SdkMessage.streamEvent ("tool_use")
          (some ("Task")) none ("")) ("b1") 1
        { store := oneSessionStore,
          currentSubAgentId := none }).store.subAgents =
        oneSessionStore.subAgents ++ [("b1", sa)] ∧
      (processOneMessage ("s1") (SdkMessage.streamEvent ("tool_use")
          (some ("Task")) none ("")) ("b1") 1
        { store := oneSessionStore,
          currentSubAgentId := none }).currentSubAgentId =
        some ("b1") ∧
      sa.sessionId = "s1" ∧
      sa.status = SubAgentStatus.running ∧
      sa.completedAt = none ∧
      sa.result = none ∧
      lookupA (processOneMessage ("s1") (SdkMessage.streamEvent
          ("tool_result") (some ("Task")) none ("all tests pass")) ("b2") 2
        (processOneMessage ("s1") (SdkMessage.streamEvent ("tool_use")
          (some ("Task")) none ("")) ("b1") 1
          { store := oneSessionStore,
            currentSubAgentId := none })).store.subAgents ("b1") =
        some sa2 ∧
      sa2.status = SubAgentStatus.completed ∧
      sa2.completedAt = some 2 ∧
      sa2.result = some (jsTake ("all tests pass") 1000) ∧
      (jsTake ("all tests pass") 1000).length ≤ 1000 ∧
      (processOneMessage ("s1") (SdkMessage.streamEvent ("tool_result")
          (some ("Task")) none ("all tests pass")) ("b2") 2
        (processOneMessage ("s1") (SdkMessage.streamEvent ("tool_use")
          (some ("Task")) none ("")) ("b1") 1
          { store := oneSessionStore,
            currentSubAgentId := none })).currentSubAgentId = none) :=
  ⟨rfl, by decide, by decide,
   claim_C4_amended oneSessionStore none ("s1") ("b1") ("b2")
     ("all tests pass") none 1 2 rfl (by decide) (by decide)⟩

/-- C5 counterexample: a stream that ends cleanly without ever yielding a
terminal result leaves the session active with no error — the catch-based
fallback fires only when the stream raises, so such a run does not terminate
in a non-active status. -/
theorem claim_C5_counterexample :
    (lookupA scenarioCFinal.sessions ("s1")).map Session.status =
      some SessionStatus.active ∧
    (lookupA scenarioCFinal.sessions ("s1")).map Session.error =
      some none := by
  refine ⟨?_, ?_⟩ <;> decide

/-- C5 (amended): when the event stream of a run raises before any terminal
result, the catch block stamps the stored session with status error, and
records the caught message in the error field whenever that message is
non-empty; a stream that closes cleanly without a terminal result takes no
fallback path at all (see the counterexample). -/
theorem claim_C5_amended (st : Store) (sid : String)
    (events : List (SdkMessage × String × Nat)) (m : Option String)
    (now : Nat) (s : Session) (hs : lookupA st.sessions sid = some s) :
    ∃ s', lookupA (runSessionInBackground sid events (StreamEnd.raised m) now
        st).sessions sid = some s' ∧
      s'.status = SessionStatus.error ∧
      (caughtMessage m ≠ "" → s'.error = some (caughtMessage m)) := by
  have hpres : (lookupA (processSessionMessages sid events
      { store := st, currentSubAgentId := none }).store.sessions
      sid).isSome = true :=
    processSessionMessages_preserves sid events _ sid (by rw [hs]; rfl)
  obtain ⟨s1, hs1⟩ := Option.isSome_iff_exists.mp hpres
  have h2 := updateSessionStatus_lookup _ sid SessionStatus.error
    (some (caughtMessage m)) now s1 hs1
  refine ⟨_, h2, rfl, ?_⟩
  intro hne
  simp [hne]

/-- C5 witness: the amended theorem applied to a raised Error whose message
is kaboom, against the one-session store with no prior events. -/
theorem claim_C5_witness :
    lookupA oneSessionStore.sessions ("s1") = some freshSession ∧
    (∃ s', lookupA (runSessionInBackground ("s1") []
        (StreamEnd.raised (some ("kaboom"))) 9 oneSessionStore).sessions
        ("s1") = some s' ∧
      s'.status = SessionStatus.error ∧
      (caughtMessage (some ("kaboom")) ≠ "" →
        s'.error = some (caughtMessage (some ("kaboom"))))) :=
  ⟨rfl, claim_C5_amended oneSessionStore ("s1") [] (some ("kaboom")) 9
    freshSession rfl⟩

/-- Complete events in a concatenation add up. -/
theorem completeCount_append (a b : List SseEvent) :
    completeCount (a ++ b) = completeCount a + completeCount b := by
  simp [completeCount, List.filter_append]

/-- Message events contribute no complete events. -/
theorem completeCount_messageEvents (l : List SessionMessage)
    (status : SessionStatus) (cu tt : Nat) (tc : Rat) :
    completeCount (l.map fun m => SseEvent.message m status cu tt tc) = 0 := by
  induction l with
  | nil => rfl
  | cons x rest ih => simp [completeCount] at ih ⊢

/-- A tick on a terminal snapshot with the one-shot flag clear pushes exactly
one complete event and sets the flag. -/
theorem pollTick_terminal_fresh (s : Session) (ps : PollState)
    (hterm : s.status = SessionStatus.completed ∨
      s.status = SessionStatus.error)
    (hsent : ps.completionSent = false) :
    completeCount (pollTick s ps).1 = 1 ∧
    (pollTick s ps).2.completionSent = true := by
  rcases hterm with h | h <;>
    by_cases hm : ps.lastMessageCount < s.messages.length <;>
    simp [pollTick, completeCount_append, completeCount_messageEvents,
      completeCount, h, hsent, hm] <;>
    (intro a ha
     obtain ⟨m, _, rfl⟩ := List.mem_map.mp (List.mem_of_mem_drop ha)
     rfl)

/-- A tick on a terminal snapshot with the flag already set pushes no
complete event and keeps the flag. -/
theorem pollTick_terminal_sent (s : Session) (ps : PollState)
    (hterm : s.status = SessionStatus.completed ∨
      s.status = SessionStatus.error)
    (hsent : ps.completionSent = true) :
    completeCount (pollTick s ps).1 = 0 ∧
    (pollTick s ps).2.completionSent = true := by
  rcases hterm with h | h <;>
    by_cases hm : ps.lastMessageCount < s.messages.length <;>
    simp [pollTick, completeCount_append, completeCount_messageEvents,
      completeCount, h, hsent, hm] <;>
    (intro a ha
     obtain ⟨m, _, rfl⟩ := List.mem_map.mp (List.mem_of_mem_drop ha)
     rfl)

/-- A tick on an active snapshot pushes no complete event and clears the
one-shot flag. -/
theorem pollTick_active (s : Session) (ps : PollState)
    (hact : s.status = SessionStatus.active) :
    completeCount (pollTick s ps).1 = 0 ∧
    (pollTick s ps).2.completionSent = false := by
  by_cases hs : ps.completionSent = true <;>
    by_cases hm : ps.lastMessageCount < s.messages.length <;>
    simp [pollTick, completeCount_append, completeCount_messageEvents,
      completeCount, hact, hs, hm] <;>
    (intro a ha
     obtain ⟨m, _, rfl⟩ := List.mem_map.mp (List.mem_of_mem_drop ha)
     rfl)

/-- Polling a run of terminal snapshots with the flag set pushes no complete
event and keeps the flag. -/
theorem pollLoop_terminal_sent (xs : List Session) (ps : PollState)
    (hxs : ∀ x ∈ xs, x.status = SessionStatus.completed ∨
      x.status = SessionStatus.error)
    (hsent : ps.completionSent = true) :
    completeCount (pollLoop (xs.map some) ps).1 = 0 ∧
    (pollLoop (xs.map some) ps).2.completionSent = true := by
  induction xs generalizing ps with
  | nil => exact ⟨rfl, hsent⟩
  | cons x rest ih =>
    have ht := pollTick_terminal_sent x ps (hxs x (by simp)) hsent
    have ihr := ih _ (fun y hy => hxs y (List.mem_cons_of_mem x hy)) ht.2
    constructor
    · simp only [List.map_cons, pollLoop]
      rw [completeCount_append, ht.1, ihr.1]
    · simp only [List.map_cons, pollLoop]
      exact ihr.2

/-- Polling a run of active snapshots pushes no complete event and leaves
the flag clear. -/
theorem pollLoop_active (ys : List Session) (ps : PollState)
    (hys : ∀ y ∈ ys, y.status = SessionStatus.active)
    (hsent : ps.completionSent = false) :
    completeCount (pollLoop (ys.map some) ps).1 = 0 ∧
    (pollLoop (ys.map some) ps).2.completionSent = false := by
  induction ys generalizing ps with
  | nil => exact ⟨rfl, hsent⟩
  | cons y rest ih =>
    have ht := pollTick_active y ps (hys y (by simp))
    have ihr := ih _ (fun w hw => hys w (List.mem_cons_of_mem y hw)) ht.2
    constructor
    · simp only [List.map_cons, pollLoop]
      rw [completeCount_append, ht.1, ihr.1]
    · simp only [List.map_cons, pollLoop]
      exact ihr.2

/-- The polling loop distributes over concatenation as long as the first
part consists of present snapshots. -/
theorem pollLoop_append (xs : List Session) (l2 : List (Option Session))
    (ps : PollState) :
    pollLoop (xs.map some ++ l2) ps =
      ((pollLoop (xs.map some) ps).1 ++
        (pollLoop l2 (pollLoop (xs.map some) ps).2).1,
       (pollLoop l2 (pollLoop (xs.map some) ps).2).2) := by
  induction xs generalizing ps with
  | nil => simp [pollLoop]
  | cons x rest ih =>
    simp [pollLoop, ih, List.append_assoc]

/-- C6: on a per-session subscription whose one-shot flag starts clear, a
trace that stays terminal emits exactly one complete event (at the first
terminal poll and never again), and after the session returns to active the
flag is cleared so the next terminal poll emits exactly one fresh complete
event, for a total of two. -/
theorem claim_C6 (x0 : Session) (xs : List Session) (a : Session)
    (ys : List Session) (z : Session) (lc : Nat)
    (hx0 : x0.status = SessionStatus.completed ∨
      x0.status = SessionStatus.error)
    (hxs : ∀ x ∈ xs, x.status = SessionStatus.completed ∨
      x.status = SessionStatus.error)
    (ha : a.status = SessionStatus.active)
    (hys : ∀ y ∈ ys, y.status = SessionStatus.active)
    (hz : z.status = SessionStatus.completed ∨
      z.status = SessionStatus.error) :
    completeCount (pollLoop ((x0 :: xs).map some)
      { lastMessageCount := lc, completionSent := false }).1 = 1 ∧
    completeCount (pollLoop (((x0 :: xs) ++ (a :: ys) ++ [z]).map some)
      { lastMessageCount := lc, completionSent := false }).1 = 2 := by
  have ht0 := pollTick_terminal_fresh x0
    { lastMessageCount := lc, completionSent := false } hx0 rfl
  have hloop1 := pollLoop_terminal_sent xs _ hxs ht0.2
  have hcount1 : completeCount (pollLoop ((x0 :: xs).map some)
      { lastMessageCount := lc, completionSent := false }).1 = 1 := by
    simp only [List.map_cons, pollLoop]
    rw [completeCount_append, ht0.1, hloop1.1]
  have hflag1 : (pollLoop ((x0 :: xs).map some)
      { lastMessageCount := lc, completionSent := false }).2.completionSent =
      true := by
    simp only [List.map_cons, pollLoop]
    exact hloop1.2
  have hseg2 : ∀ ps : PollState,
      completeCount (pollLoop ((a :: ys).map some) ps).1 = 0 ∧
      (pollLoop ((a :: ys).map some) ps).2.completionSent = false := by
    intro ps
    have hta := pollTick_active a ps ha
    have hloopy := pollLoop_active ys _ hys hta.2
    constructor
    · simp only [List.map_cons, pollLoop]
      rw [completeCount_append, hta.1, hloopy.1]
    · simp only [List.map_cons, pollLoop]
      exact hloopy.2
  have hsegz : ∀ ps : PollState, ps.completionSent = false →
      completeCount (pollLoop ([z].map some) ps).1 = 1 := by
    intro ps hps
    have htz := pollTick_terminal_fresh z ps hz hps
    simp only [List.map_cons, List.map_nil, pollLoop]
    rw [completeCount_append, htz.1]
    rfl
  refine ⟨hcount1, ?_⟩
  rw [List.map_append, List.map_append, List.append_assoc,
    pollLoop_append (x0 :: xs)]
  rw [completeCount_append, hcount1]
  rw [pollLoop_append (a :: ys)]
  rw [completeCount_append, (hseg2 _).1, hsegz _ (hseg2 _).2]

/-- C6 witness: the theorem applied to a completed snapshot, one active
snapshot, and a final error snapshot: one complete event before the
continuation and two in total. -/
theorem claim_C6_witness :
    ((statusSession SessionStatus.completed).status =
        SessionStatus.completed ∨
      (statusSession SessionStatus.completed).status =
        SessionStatus.error) ∧
    ((statusSession SessionStatus.error).status = SessionStatus.completed ∨
      (statusSession SessionStatus.error).status = SessionStatus.error) ∧
    (completeCount (pollLoop
        ((statusSession SessionStatus.completed :: ([] : List Session)).map
          some)
        { lastMessageCount := 0, completionSent := false }).1 = 1 ∧
     completeCount (pollLoop
        (((statusSession SessionStatus.completed :: ([] : List Session)) ++
          (statusSession SessionStatus.active :: ([] : List Session)) ++
          [statusSession SessionStatus.error]).map some)
        { lastMessageCount := 0, completionSent := false }).1 = 2) :=
  ⟨Or.inl rfl, Or.inr rfl,
   claim_C6 (statusSession SessionStatus.completed) []
     (statusSession SessionStatus.active) []
     (statusSession SessionStatus.error) 0 (Or.inl rfl) (by simp) rfl
     (by simp) (Or.inr rfl)⟩
